import Mathlib

/-
Verification development for the Cognitive Task Orchestrator of
notion-mcp-empowerment-engine.

The embedding follows src/src/lionagi-integration/lionagi-mcp-bridge.ts
(class LionAGIMCPBridge) and the engine layer in the unnamed source file
holding class NotionMCPEmpowermentEngine (orchestrateMultiModelTask).

Modelling conventions:
- JavaScript values flowing through the bridge (parsed process output,
  workflow results) are modelled by the inductive `Json`.
- JavaScript `Map` and plain-object dictionaries are association lists
  with `Map.set` / `Map.delete` semantics (`aset`, `adelete`).
- JavaScript numbers are `ℚ` where the source divides (metrics), `Nat`
  for timestamps and counters.
- `async` methods that can reject are `Except String _`; a thrown or
  rejected error is `Except.error`, a returned value is `Except.ok`.
- Wall-clock reads (`Date.now()`), `Math.random()` suffixes, the spawned
  python3 process's behaviour (exit code, stdout, stderr) and the
  outcome of the forensic `writeFile` are inputs supplied in an
  environment record `OrchEnv`, since they are external to the program.
-/

/-- Model of a JavaScript/JSON value as produced by `JSON.parse`. -/
inductive Json where
  | null : Json
  | bool (b : Bool) : Json
  | num (n : Int) : Json
  | str (s : String) : Json
  | arr (elems : List Json) : Json
  | obj (fields : List (String × Json)) : Json

/-- Association-list lookup, the model of `Map.get` / object property read. -/
def alookup {α : Type} : List (String × α) → String → Option α
  | [], _ => none
  | (k', v) :: rest, k => if k' = k then some v else alookup rest k

/-- Association-list update, the model of `Map.set` / object property write:
replaces the entry when the key is present, appends otherwise. -/
def aset {α : Type} : List (String × α) → String → α → List (String × α)
  | [], k, v => [(k, v)]
  | (k', v') :: rest, k, v =>
      if k' = k then (k', v) :: rest else (k', v') :: aset rest k v

/-- Association-list removal, the model of `Map.delete`. -/
def adelete {α : Type} : List (String × α) → String → List (String × α)
  | [], _ => []
  | (k', v') :: rest, k => if k' = k then rest else (k', v') :: adelete rest k

/-- Property read on a `Json` value: `j.f` in JavaScript, `undefined`
(`none`) when absent or when the value is not an object. -/
def Json.getField : Json → String → Option Json
  | Json.obj fields, k => alookup fields k
  | _, _ => none

/-- JavaScript truthiness of a possibly-`undefined` value, as used by
`if (result.model_used)` and `if (... && result.session_id)`. -/
def isTruthy : Option Json → Bool
  | none => false
  | some Json.null => false
  | some (Json.bool b) => b
  | some (Json.num n) => n ≠ 0
  | some (Json.str s) => s ≠ ""
  | some (Json.arr _) => true
  | some (Json.obj _) => true

/-- JavaScript string coercion of a value used as a property key. -/
def jsToString : Json → String
  | Json.null => "null"
  | Json.bool b => cond b "true" "false"
  | Json.num n => toString n
  | Json.str s => s
  | Json.arr _ => ""
  | Json.obj _ => "[object Object]"

/-- String coercion of a possibly-`undefined` value (used after a
truthiness check, so the `none` branch is unreachable in practice). -/
def jsToStringOpt : Option Json → String
  | none => "undefined"
  | some j => jsToString j

/- JSON parsing: model of the runtime's `JSON.parse`.  The parser handles
objects, arrays, strings with the common escapes, integer numbers, and the
`true` / `false` / `null` literals; this covers every payload the
repository's process contract exchanges. -/

/-- Skip JSON whitespace. -/
def skipWs : List Char → List Char
  | [] => []
  | c :: rest =>
      if c = ' ' ∨ c = '\n' ∨ c = '\t' ∨ c = '\r' then skipWs rest else c :: rest

/-- Drop an expected literal character sequence, failing otherwise. -/
def dropLit : List Char → List Char → Option (List Char)
  | [], cs => some cs
  | _, [] => none
  | e :: es, c :: cs => if c = e then dropLit es cs else none

/-- Parse the body of a JSON string literal after its opening quote. -/
def parseStringBody : Nat → List Char → List Char → Option (String × List Char)
  | 0, _, _ => none
  | _, [], _ => none
  | fuel + 1, c :: rest, acc =>
      if c = '"' then some (String.mk acc.reverse, rest)
      else if c = '\\' then
        match rest with
        | [] => none
        | e :: rest2 =>
            if e = '"' then parseStringBody fuel rest2 ( '"' :: acc)
            else if e = '\\' then parseStringBody fuel rest2 ( '\\' :: acc)
            else if e = '/' then parseStringBody fuel rest2 ( '/' :: acc)
            else if e = 'n' then parseStringBody fuel rest2 ( '\n' :: acc)
            else if e = 't' then parseStringBody fuel rest2 ( '\t' :: acc)
            else if e = 'r' then parseStringBody fuel rest2 ( '\r' :: acc)
            else none
      else parseStringBody fuel rest (c :: acc)

/-- Is the character an ASCII digit. -/
def isDigitCh (c : Char) : Bool := 48 ≤ c.toNat ∧ c.toNat ≤ 57

/-- Parse a maximal run of digits, accumulating their value. -/
def parseDigits : Nat → List Char → Nat → Option (Nat × List Char)
  | 0, _, _ => none
  | _, [], acc => some (acc, [])
  | fuel + 1, c :: rest, acc =>
      if isDigitCh c then parseDigits fuel rest (acc * 10 + (c.toNat - 48))
      else some (acc, c :: rest)

mutual

/-- Parse one JSON value. -/
def parseValue : Nat → List Char → Option (Json × List Char)
  | 0, _ => none
  | fuel + 1, cs =>
      match skipWs cs with
      | [] => none
      | c :: rest =>
          if c = '\x7b' then
            match skipWs rest with
            | d :: rest1 =>
                if d = '\x7d' then some (Json.obj [], rest1)
                else
                  match parseMembers fuel (d :: rest1) [] with
                  | some (fs, rest2) => some (Json.obj fs, rest2)
                  | none => none
            | [] => none
          else if c = '[' then
            match skipWs rest with
            | d :: rest1 =>
                if d = ']' then some (Json.arr [], rest1)
                else
                  match parseElements fuel (d :: rest1) [] with
                  | some (vs, rest2) => some (Json.arr vs, rest2)
                  | none => none
            | [] => none
          else if c = '"' then
            match parseStringBody (fuel + 1) rest [] with
            | some (s, rest1) => some (Json.str s, rest1)
            | none => none
          else if c = 't' then
            match dropLit [ 'r', 'u', 'e'] rest with
            | some rest1 => some (Json.bool true, rest1)
            | none => none
          else if c = 'f' then
            match dropLit [ 'a', 'l', 's', 'e'] rest with
            | some rest1 => some (Json.bool false, rest1)
            | none => none
          else if c = 'n' then
            match dropLit [ 'u', 'l', 'l'] rest with
            | some rest1 => some (Json.null, rest1)
            | none => none
          else if c = '-' then
            match rest with
            | d :: rest1 =>
                if isDigitCh d then
                  match parseDigits (fuel + 1) rest1 (d.toNat - 48) with
                  | some (n, rest2) => some (Json.num (-(Int.ofNat n)), rest2)
                  | none => none
                else none
            | [] => none
          else if isDigitCh c then
            match parseDigits (fuel + 1) rest (c.toNat - 48) with
            | some (n, rest1) => some (Json.num (Int.ofNat n), rest1)
            | none => none
          else none

/-- Parse the members of a JSON object after its opening brace. -/
def parseMembers : Nat → List Char → List (String × Json) →
    Option (List (String × Json) × List Char)
  | 0, _, _ => none
  | fuel + 1, cs, acc =>
      match skipWs cs with
      | c :: rest =>
          if c = '"' then
            match parseStringBody (fuel + 1) rest [] with
            | some (key, rest1) =>
                match skipWs rest1 with
                | d :: rest2 =>
                    if d = ':' then
                      match parseValue fuel rest2 with
                      | some (v, rest3) =>
                          match skipWs rest3 with
                          | e :: rest4 =>
                              if e = ',' then parseMembers fuel rest4 (acc ++ [(key, v)])
                              else if e = '\x7d' then some (acc ++ [(key, v)], rest4)
                              else none
                          | [] => none
                      | none => none
                    else none
                | [] => none
            | none => none
          else none
      | [] => none

/-- Parse the elements of a JSON array after its opening bracket. -/
def parseElements : Nat → List Char → List Json → Option (List Json × List Char)
  | 0, _, _ => none
  | fuel + 1, cs, acc =>
      match parseValue fuel cs with
      | some (v, rest) =>
          match skipWs rest with
          | e :: rest1 =>
              if e = ',' then parseElements fuel rest1 (acc ++ [v])
              else if e = ']' then some (acc ++ [v], rest1)
              else none
          | [] => none
      | none => none

end

/-- Model of `JSON.parse`: `some` of the parsed value on well-formed
input (allowing surrounding whitespace), `none` where the runtime would
throw a `SyntaxError`. -/
def Json.parse (s : String) : Option Json :=
  match parseValue (4 * s.length + 16) s.data with
  | some (j, rest) => if skipWs rest = [] then some j else none
  | none => none

/- Rendering: model of `JSON.stringify` as used by `logForensicOperation`
(string escaping is elided; the payloads hashed in this development are
escape-free). -/

mutual

/-- Render a `Json` value back to text, the model of `JSON.stringify`. -/
def Json.render : Json → String
  | Json.null => "null"
  | Json.bool b => cond b "true" "false"
  | Json.num n => toString n
  | Json.str s => "\"" ++ s ++ "\""
  | Json.arr xs => "[" ++ renderElems xs ++ "]"
  | Json.obj fs => "\x7b" ++ renderFields fs ++ "\x7d"

/-- Render the comma-separated elements of an array. -/
def renderElems : List Json → String
  | [] => ""
  | [x] => Json.render x
  | x :: y :: xs => Json.render x ++ "," ++ renderElems (y :: xs)

/-- Render the comma-separated members of an object. -/
def renderFields : List (String × Json) → String
  | [] => ""
  | [(k, v)] => "\"" ++ k ++ "\":" ++ Json.render v
  | (k, v) :: f :: fs => "\"" ++ k ++ "\":" ++ Json.render v ++ "," ++ renderFields (f :: fs)

end

/-- Base64 alphabet used by `Buffer.toString` with base64 encoding. -/
def base64Chars : List Char :=
  ("ABCDEFGHIJKLMNOPQRSTUVWXYZabcdefghijklmnopqrstuvwxyz0123456789+/").data

/-- Base64 digit for a 6-bit value. -/
def b64Char (n : Nat) : Char := (base64Chars.get? n).getD 'A'

/-- Base64-encode a byte sequence with padding. -/
def base64Encode : List Nat → List Char
  | [] => []
  | [a] => [b64Char (a / 4), b64Char ((a % 4) * 16), '=', '=']
  | [a, b] => [b64Char (a / 4), b64Char ((a % 4) * 16 + b / 16), b64Char ((b % 16) * 4), '=']
  | a :: b :: c :: rest =>
      b64Char (a / 4) :: b64Char ((a % 4) * 16 + b / 16) ::
        b64Char ((b % 16) * 4 + c / 64) :: b64Char (c % 64) :: base64Encode rest

/-- Byte view of a string; coincides with UTF-8 on the ASCII payloads
this development hashes. -/
def strBytes (s : String) : List Nat := s.data.map Char.toNat

/-- Model of `generateDataHash`: a base64 encoding of the data truncated
to 32 characters (`Buffer.from(data).toString(base64).substr(0, 32)`) —
a truncated encoding, not a cryptographic digest. -/
def generateDataHash (data : String) : String :=
  (String.mk (base64Encode (strBytes data))).take 32

/-- Model of `generateChainOfCustody`: concatenation of the operation id,
a wall-clock reading and the host name. -/
def generateChainOfCustody (operationId : String) (now : Nat) (hostname : Option String) : String :=
  "CoC_" ++ operationId ++ "_" ++ toString now ++ "_" ++ hostname.getD "unknown"

/- Data model of the bridge, following the interfaces and private fields
of class LionAGIMCPBridge. -/

/-- Model of the `CognitiveTask` interface.  The `type` field is a
`String`: TypeScript unions are erased at runtime and the engine layer
forwards externally supplied task types unchecked, so the runtime check
in `orchestrateCognitiveTask` is the only guard. -/
structure CognitiveTask where
  id : String
  type : String
  priority : String
  context : Json
  models : List String
  tools : List String
  expected_output : String

/-- Model of an entry of the `activeOperations` map. -/
structure Operation where
  task : CognitiveTask
  startTime : Nat
  status : String

/-- Model of the `cognitiveMetrics` object.  Note the source stores a
`successRate` and an `averageResponseTime`, not success/failure counters
or a latency sum. -/
structure CognitiveMetrics where
  totalOperations : Nat
  successRate : ℚ
  averageResponseTime : ℚ
  modelUsageStats : List (String × Nat)
deriving Repr, DecidableEq

/-- Model of the `apiKeys` constructor option. -/
structure ApiKeys where
  openai : Option String
  anthropic : Option String
  perplexity : Option String
deriving Repr, DecidableEq

/-- Model of the constructor configuration of `LionAGIMCPBridge`.  It has
no timeout field of any kind. -/
structure BridgeConfig where
  pythonPath : Option String
  lionagiPath : Option String
  apiKeys : ApiKeys
  forensicLogging : Bool
  hawaiiCourtMode : Bool
deriving Repr, DecidableEq

/-- Mutable private state of a `LionAGIMCPBridge` instance. -/
structure BridgeState where
  isInitialized : Bool
  activeOperations : List (String × Operation)
  cognitiveMetrics : CognitiveMetrics
  sessionManager : List (String × Json)
  taskQueue : List CognitiveTask

/-- Observable behaviour of one spawned `python3` process: its exit code
and the text it wrote to stdout and stderr. -/
structure ProcRun where
  exitCode : Int
  stdout : String
  stderr : String
deriving Repr, DecidableEq

/-- Environment of one `orchestrateCognitiveTask` call: the wall-clock
readings, the random id suffix, the spawned process's behaviour and the
outcome of the forensic `writeFile` (rejecting with `some` message). -/
structure OrchEnv where
  idNow : Nat
  startNow : Nat
  endNow : Nat
  rand : String
  proc : ProcRun
  forensicNow : Nat
  cocNow : Nat
  hostname : Option String
  forensicWriteError : Option String

/-- Model of the `LionAGIResponse` interface returned to callers. -/
structure LionAGIResponse where
  success : Bool
  result : Option Json
  error : Option String
  session_id : Option Json
  model_used : Option Json
  token_usage : Option Json
  reasoning_steps : Option Json

/-- Operation id generated at submission:
`op_` + `Date.now()` + `_` + random base-36 suffix. -/
def operationIdOf (env : OrchEnv) : String :=
  "op_" ++ toString env.idNow ++ "_" ++ env.rand

/-- Message carried by the `SyntaxError` that `JSON.parse` throws on
malformed input (`e.message` in the source); its exact text is
engine-specific but always non-empty. -/
def jsonParseErrorMsg : String := "Unexpected token in JSON"

/-- Model of `executePythonScript`.  On exit code 0 the captured stdout
is fed to `JSON.parse`; a parse failure resolves with the raw output and
a `parsing_error` marker instead of rejecting.  A nonzero exit rejects
with the captured stderr.  The executor installs no timer and never
kills the process: the promise settles only at the `close` event. -/
def executePythonScript (run : ProcRun) : Except String Json :=
  if run.exitCode = 0 then
    match Json.parse run.stdout with
    | some result => Except.ok result
    | none => Except.ok (Json.obj [("output", Json.str run.stdout),
        ("parsing_error", Json.str jsonParseErrorMsg)])
  else
    Except.error ("Python process failed: " ++ run.stderr)

/-- Model of `executeLegalReasoningWorkflow`: builds a python script and
returns `executePythonScript` on it; the spawned process's behaviour is
the environment's. -/
def executeLegalReasoningWorkflow (task : CognitiveTask) (env : OrchEnv) : Except String Json :=
  executePythonScript env.proc

/-- Model of `executeResearchWorkflow`. -/
def executeResearchWorkflow (task : CognitiveTask) (env : OrchEnv) : Except String Json :=
  executePythonScript env.proc

/-- Model of `executeAnalysisWorkflow`. -/
def executeAnalysisWorkflow (task : CognitiveTask) (env : OrchEnv) : Except String Json :=
  executePythonScript env.proc

/-- Model of `executeCodeGenerationWorkflow`. -/
def executeCodeGenerationWorkflow (task : CognitiveTask) (env : OrchEnv) : Except String Json :=
  executePythonScript env.proc

/-- Model of `executeCrossPlatformSyncWorkflow`. -/
def executeCrossPlatformSyncWorkflow (task : CognitiveTask) (env : OrchEnv) : Except String Json :=
  executePythonScript env.proc

/-- The `switch (task.type)` of `orchestrateCognitiveTask`: routes to the
five workflow handlers; the `default` arm throws
`Unknown task type: ` followed by the task's type. -/
def routeWorkflow (task : CognitiveTask) (env : OrchEnv) : Except String Json :=
  if task.type = "legal_reasoning" then executeLegalReasoningWorkflow task env
  else if task.type = "research" then executeResearchWorkflow task env
  else if task.type = "analysis" then executeAnalysisWorkflow task env
  else if task.type = "code_generation" then executeCodeGenerationWorkflow task env
  else if task.type = "cross_platform_sync" then executeCrossPlatformSyncWorkflow task env
  else Except.error ("Unknown task type: " ++ task.type)

/-- Strict comparison `result.success !== false` of the source, negated:
true exactly when the property holds the boolean `false`. -/
def isStrictlyFalse : Option Json → Bool
  | some (Json.bool false) => true
  | _ => false

/-- Model of `updateCognitiveMetrics`.  The source increments
`totalOperations`, blends the new duration into `averageResponseTime` as
`(old + duration) / 2`, updates `successRate` as
`(old + 1) / totalOperations` on the success branch only, and bumps the
per-model usage count when `result.model_used` is truthy.  It reads the
operation from `activeOperations` and does nothing when the id is
absent. -/
def updateCognitiveMetrics (st : BridgeState) (operationId : String) (result : Json)
    (now : Nat) : CognitiveMetrics :=
  match alookup st.activeOperations operationId with
  | none => st.cognitiveMetrics
  | some operation =>
      let duration : Nat := now - operation.startTime
      let m0 := st.cognitiveMetrics
      let total := m0.totalOperations + 1
      let avg : ℚ := (m0.averageResponseTime + (duration : ℚ)) / 2
      let rate : ℚ :=
        if isStrictlyFalse (Json.getField result "success") then m0.successRate
        else (m0.successRate + 1) / (total : ℚ)
      let stats :=
        if isTruthy (Json.getField result "model_used") then
          let key := jsToStringOpt (Json.getField result "model_used")
          aset m0.modelUsageStats key ((alookup m0.modelUsageStats key).getD 0 + 1)
        else m0.modelUsageStats
      { totalOperations := total, successRate := rate,
        averageResponseTime := avg, modelUsageStats := stats }

/-- Persisted forensic record built by `logForensicOperation`. -/
structure ForensicEntry where
  operation_id : String
  timestamp : Nat
  task_type : String
  task_priority : String
  models_used : Option Json
  session_id : Option Json
  case_context : String
  jurisdiction : String
  data_hash : String
  chain_of_custody : String

/-- Model of `logForensicOperation`: builds the forensic entry and awaits
a `writeFile` of it; the write's outcome is environmental and a rejection
propagates to the caller (the source has no local catch). -/
def logForensicOperation (env : OrchEnv) (operationId : String) (task : CognitiveTask)
    (result : Json) : Except String ForensicEntry :=
  let entry : ForensicEntry :=
    { operation_id := operationId
      timestamp := env.forensicNow
      task_type := task.type
      task_priority := task.priority
      models_used := Json.getField result "model_used"
      session_id := Json.getField result "session_id"
      case_context := "1FDV-23-0001009"
      jurisdiction := "Hawaii Family Court"
      data_hash := generateDataHash (Json.render result)
      chain_of_custody := generateChainOfCustody operationId env.cocNow env.hostname }
  match env.forensicWriteError with
  | some msg => Except.error msg
  | none => Except.ok entry

/-- Response built by the `catch` clause of `orchestrateCognitiveTask`:
`success: false` with the caught error's message. -/
def catchResponse (msg : String) : LionAGIResponse :=
  { success := false, result := none, error := some msg,
    session_id := none, model_used := none, token_usage := none,
    reasoning_steps := none }

/-- Model of `orchestrateCognitiveTask`.  Faithful control flow of the
source: an uninitialized bridge throws (rejects) before any state is
touched; otherwise the operation is inserted into `activeOperations`,
the task is routed and executed, metrics are updated and (when enabled)
the forensic entry is written, the operation entry is deleted, and a
structured response is returned.  Any error thrown inside the `try`
block — routing, execution, or the forensic write — lands in the
`catch`, which deletes the operation entry and returns
`success: false` with the error's message. -/
def orchestrateCognitiveTask (config : BridgeConfig) (st : BridgeState)
    (task : CognitiveTask) (env : OrchEnv) :
    Except String LionAGIResponse × BridgeState :=
  if st.isInitialized = false then
    (Except.error "LionAGI Bridge not initialized", st)
  else
    let operationId := operationIdOf env
    let st1 : BridgeState := { st with
      activeOperations := aset st.activeOperations operationId
        { task := task, startTime := env.startNow, status := "processing" } }
    match routeWorkflow task env with
    | Except.error msg =>
        (Except.ok (catchResponse msg),
         { st1 with activeOperations := adelete st1.activeOperations operationId })
    | Except.ok result =>
        let st2 : BridgeState := { st1 with
          cognitiveMetrics := updateCognitiveMetrics st1 operationId result env.endNow }
        let forensic : Except String Unit :=
          if config.forensicLogging then
            match logForensicOperation env operationId task result with
            | Except.error msg => Except.error msg
            | Except.ok _ => Except.ok ()
          else Except.ok ()
        match forensic with
        | Except.error msg =>
            (Except.ok (catchResponse msg),
             { st2 with activeOperations := adelete st2.activeOperations operationId })
        | Except.ok _ =>
            (Except.ok
              { success := true
                result := some result
                error := none
                session_id := Json.getField result "session_id"
                model_used := Json.getField result "model_used"
                token_usage := Json.getField result "token_usage"
                reasoning_steps := Json.getField result "reasoning_steps" },
             { st2 with activeOperations := adelete st2.activeOperations operationId })

/-- Value view of the object returned by `getCognitiveMetrics`: the
spread of `cognitiveMetrics` plus live sizes and wall-clock fields
(`uptime` and `timestamp` are passthroughs of the environment). -/
structure MetricsReport where
  totalOperations : Nat
  successRate : ℚ
  averageResponseTime : ℚ
  modelUsageStats : List (String × Nat)
  activeOperations : Nat
  queuedTasks : Nat
  sessions : Nat
  uptime : Nat
  timestamp : Nat

/-- Model of `getCognitiveMetrics`, read as a value snapshot.  (The
object-identity aspect of the spread — which fields are copied and which
are aliased — is modelled separately below for the frame claim.) -/
def getCognitiveMetrics (st : BridgeState) (uptime timestamp : Nat) : MetricsReport :=
  { totalOperations := st.cognitiveMetrics.totalOperations
    successRate := st.cognitiveMetrics.successRate
    averageResponseTime := st.cognitiveMetrics.averageResponseTime
    modelUsageStats := st.cognitiveMetrics.modelUsageStats
    activeOperations := st.activeOperations.length
    queuedTasks := st.taskQueue.length
    sessions := st.sessionManager.length
    uptime := uptime
    timestamp := timestamp }

/- Engine layer: class NotionMCPEmpowermentEngine, method
orchestrateMultiModelTask (tool lionagi_multi_model_orchestration). -/

/-- Session record stored in the engine's `lionagiSessions` map
(`created` / `last_accessed` ISO strings modelled as clock readings). -/
structure SessionInfo where
  task_type : String
  context : Json
  models : List String
  created : Nat
  last_accessed : Nat

/-- Arguments of `orchestrateMultiModelTask` after destructuring; the
source defaults are `models = [gpt-4o]`, `priority = high`,
`structured_output = true`, `session_persistence = true`. -/
structure MultiModelArgs where
  task_type : String
  context : Json
  models : List String
  priority : String
  structured_output : Bool
  session_persistence : Bool

/-- Engine-side mutable state used by `orchestrateMultiModelTask`. -/
structure EngineState where
  bridge : BridgeState
  lionagiSessions : List (String × SessionInfo)

/-- Result object built by `orchestrateMultiModelTask` on success. -/
structure MultiModelResult where
  success : Bool
  task_type : String
  models_used : List String
  result : Option Json
  session_id : Option Json
  reasoning_steps : Option Json
  lionagi_coordination : Bool
  timestamp : Nat

/-- The `CognitiveTask` object `orchestrateMultiModelTask` builds from
its arguments (`id` is `orchestrate_` plus `Date.now()`). -/
def engineTaskOf (args : MultiModelArgs) (engNow : Nat) : CognitiveTask :=
  { id := "orchestrate_" ++ toString engNow
    type := args.task_type
    priority := args.priority
    context := args.context
    models := args.models
    tools := []
    expected_output := if args.structured_output then "structured" else "streaming" }

/-- Model of `orchestrateMultiModelTask`: builds a `CognitiveTask` from
the arguments, hands it to the bridge, stores a session record when
persistence is requested and the bridge result carries a truthy
session id, and returns the combined result.  The `catch` clause logs
and rethrows, so a bridge-level throw propagates. -/
def orchestrateMultiModelTask (config : BridgeConfig) (est : EngineState)
    (args : MultiModelArgs) (env : OrchEnv) (engNow : Nat) :
    Except String MultiModelResult × EngineState :=
  let task : CognitiveTask := engineTaskOf args engNow
  match orchestrateCognitiveTask config est.bridge task env with
  | (Except.error msg, bst) => (Except.error msg, { est with bridge := bst })
  | (Except.ok result, bst) =>
      let sessions :=
        if args.session_persistence ∧ isTruthy result.session_id then
          aset est.lionagiSessions (jsToStringOpt result.session_id)
            { task_type := args.task_type, context := args.context,
              models := args.models, created := engNow, last_accessed := engNow }
        else est.lionagiSessions
      (Except.ok
        { success := true
          task_type := args.task_type
          models_used := args.models
          result := result.result
          session_id := result.session_id
          reasoning_steps := result.reasoning_steps
          lionagi_coordination := true
          timestamp := engNow },
       { bridge := bst, lionagiSessions := sessions })

/- Timed view of the process executor, for the timeout claim.  The
source's `executePythonScript` registers exactly three handlers — stdout
`data`, stderr `data`, and `close` — and performs no other action: it
sets no timer, never calls `kill`, and its promise settles only when the
`close` event fires.  This view records those effects explicitly against
a run that also carries how long the process took. -/

/-- A process run together with its wall-clock duration. -/
structure TimedProcRun where
  exitCode : Int
  stdout : String
  stderr : String
  runMs : Nat
deriving Repr, DecidableEq

/-- Effects of one `executePythonScript` call on a timed run: the settled
value, the number of `kill` signals the executor issued (the source
issues none), and the time at which the promise settled (the `close`
event, i.e. the full run duration — the executor imposes no deadline). -/
structure ExecTrace where
  result : Except String Json
  killSignals : Nat
  settledAtMs : Nat

/-- Timed model of `executePythonScript`: same settled value as
`executePythonScript`, no kill ever issued, settlement at process end
whatever the duration. -/
def executePythonScriptTimed (run : TimedProcRun) : ExecTrace :=
  let untimed : ProcRun :=
    { exitCode := run.exitCode, stdout := run.stdout, stderr := run.stderr }
  { result := executePythonScript untimed
    killSignals := 0
    settledAtMs := run.runMs }

/-- Substring test (character-list infix), used to state that an error
message does or does not mention a timeout. -/
def strContains (hay needle : String) : Bool :=
  (hay.data.tails).any (fun t => needle.data.isPrefixOf t)

/- Reference-semantics view of `getCognitiveMetrics`, for the frame
claim.  In JavaScript, `{ ...this.cognitiveMetrics, ... }` copies
primitive fields by value but copies the `modelUsageStats` property as a
reference to the same object.  The view below makes the object identity
explicit: a heap of stats objects, a metrics object holding a reference
into it, and a spread that duplicates the scalars and the reference. -/

/-- Reference into the heap of stats objects. -/
abbrev StatsRef := Nat

/-- Heap of `modelUsageStats` objects, indexed by reference. -/
structure JsHeap where
  statsObjs : List (List (String × Nat))
deriving Repr, DecidableEq

/-- Dereference a stats object. -/
def heapGet (h : JsHeap) (r : StatsRef) : List (String × Nat) :=
  (h.statsObjs.get? r).getD []

/-- Mutate the stats object behind a reference. -/
def heapSet (h : JsHeap) (r : StatsRef) (v : List (String × Nat)) : JsHeap :=
  { statsObjs := h.statsObjs.set r v }

/-- The `cognitiveMetrics` object under reference semantics: primitive
fields plus a reference to its `modelUsageStats` object. -/
structure MetricsObjR where
  totalOperations : Nat
  successRate : ℚ
  averageResponseTime : ℚ
  stats : StatsRef
deriving Repr, DecidableEq

/-- The object `getCognitiveMetrics` returns, under reference semantics:
the spread result plus the extra live fields. -/
structure SnapshotR where
  totalOperations : Nat
  successRate : ℚ
  averageResponseTime : ℚ
  stats : StatsRef
  activeOperations : Nat
  queuedTasks : Nat
  sessions : Nat
deriving Repr, DecidableEq

/-- Model of the spread `{ ...this.cognitiveMetrics, activeOperations:
..., queuedTasks: ..., sessions: ... }`: primitives are copied by value,
the `modelUsageStats` property is copied as the same reference. -/
def getCognitiveMetricsR (m : MetricsObjR) (activeOps queued sessions : Nat) : SnapshotR :=
  { totalOperations := m.totalOperations
    successRate := m.successRate
    averageResponseTime := m.averageResponseTime
    stats := m.stats
    activeOperations := activeOps
    queuedTasks := queued
    sessions := sessions }

/-- The model-usage step of `updateCognitiveMetrics` under reference
semantics: `modelUsageStats[model] = (modelUsageStats[model] || 0) + 1`
mutates the stats object behind the metrics object's reference in
place. -/
def recordModelUsageR (h : JsHeap) (m : MetricsObjR) (model : String) : JsHeap :=
  heapSet h m.stats
    (aset (heapGet h m.stats) model ((alookup (heapGet h m.stats) model).getD 0 + 1))

/- Shared concrete fixtures used by witnesses and counterexamples. -/

/-- A well-typed research task. -/
def sampleTask : CognitiveTask :=
  { id := "t1", type := "research", priority := "high", context := Json.obj [],
    models := ["gpt-4o"], tools := [], expected_output := "structured" }

/-- Metrics state as initialized by the constructor. -/
def initMetrics : CognitiveMetrics :=
  { totalOperations := 0, successRate := 0, averageResponseTime := 0, modelUsageStats := [] }

/-- Freshly initialized bridge with no live operations. -/
def initState : BridgeState :=
  { isInitialized := true, activeOperations := [], cognitiveMetrics := initMetrics,
    sessionManager := [], taskQueue := [] }

/-- Empty key set. -/
def sampleKeys : ApiKeys := { openai := none, anthropic := none, perplexity := none }

/-- Configuration with forensic logging disabled. -/
def configNoForensic : BridgeConfig :=
  { pythonPath := none, lionagiPath := none, apiKeys := sampleKeys,
    forensicLogging := false, hawaiiCourtMode := false }

/-- Configuration with forensic logging enabled. -/
def configForensic : BridgeConfig := { configNoForensic with forensicLogging := true }

/-- Environment with fixed clock readings, a given process behaviour and
a given forensic-write outcome. -/
def envOf (proc : ProcRun) (writeErr : Option String) : OrchEnv :=
  { idNow := 5, startNow := 5, endNow := 105, rand := "abc", proc := proc,
    forensicNow := 106, cocNow := 107, hostname := none, forensicWriteError := writeErr }

/-- Response returned for a successful run whose parsed payload is the
empty object. -/
def okEmptyResponse : LionAGIResponse :=
  { success := true
    result := some (Json.obj [])
    error := none
    session_id := none
    model_used := none
    token_usage := none
    reasoning_steps := none }

/-- Metrics of a bridge that has already recorded five operations. -/
def metricsBusy : CognitiveMetrics :=
  { totalOperations := 5
    successRate := 1/2
    averageResponseTime := 10
    modelUsageStats := [("gpt", 2)] }

/-- Initialized bridge carrying the busy metrics. -/
def stBusy : BridgeState := { initState with cognitiveMetrics := metricsBusy }

/-- Workflow result reporting plain success, used to drive the metrics
update on its success branch. -/
def resOkPlain : Json := Json.obj [("success", Json.bool true)]

/-- Bridge state holding one live operation that started at time 0, over
the given metrics. -/
def stWithOp (m : CognitiveMetrics) : BridgeState :=
  { initState with
      activeOperations := [("op1", { task := sampleTask, startTime := 0, status := "processing" })]
      cognitiveMetrics := m }

/-- Metrics after one successful operation of duration 100 ms. -/
def mAfter1 : CognitiveMetrics := updateCognitiveMetrics (stWithOp initMetrics) "op1" resOkPlain 100

/-- Metrics after a further successful operation of duration 0 ms. -/
def mAfter2 : CognitiveMetrics := updateCognitiveMetrics (stWithOp mAfter1) "op1" resOkPlain 0

/-- Metrics after a third successful operation of duration 0 ms. -/
def mAfter3 : CognitiveMetrics := updateCognitiveMetrics (stWithOp mAfter2) "op1" resOkPlain 0

/-- Environment for a process that is never consulted (routing fails
before any spawn). -/
def envIdle : OrchEnv := envOf { exitCode := 0, stdout := "", stderr := "" } none

/-- Heap holding one empty stats object at reference 0. -/
def heapFresh : JsHeap := { statsObjs := [[]] }

/-- Metrics object of a fresh bridge under reference semantics. -/
def metricsRFresh : MetricsObjR :=
  { totalOperations := 0, successRate := 0, averageResponseTime := 0, stats := 0 }

/-- Snapshot taken from the fresh bridge before any operation. -/
def snapFresh : SnapshotR := getCognitiveMetricsR metricsRFresh 0 0 0

/-- Response returned when a clean exit's stdout fails to parse: the raw
text plus a `parsing_error` marker, wrapped as a success. -/
def degradedResponse (raw : String) : LionAGIResponse :=
  { success := true
    result := some (Json.obj [("output", Json.str raw),
      ("parsing_error", Json.str jsonParseErrorMsg)])
    error := none
    session_id := none
    model_used := none
    token_usage := none
    reasoning_steps := none }

/-- Stdout of the C6 scenario's process. -/
def s1Stdout : String :=
  "\x7b\"success\":true,\"session_id\":\"s1\",\"model_used\":\"gpt\"\x7d"

/-- Parsed form of `s1Stdout`. -/
def s1Json : Json :=
  Json.obj [("success", Json.bool true), ("session_id", Json.str "s1"),
    ("model_used", Json.str "gpt")]

/-- Response the bridge returns for the C6 scenario. -/
def s1Response : LionAGIResponse :=
  { success := true
    result := some s1Json
    error := none
    session_id := some (Json.str "s1")
    model_used := some (Json.str "gpt")
    token_usage := none
    reasoning_steps := none }

/-- Fresh engine over the fresh bridge. -/
def engineInit : EngineState := { bridge := initState, lionagiSessions := [] }

/-- Arguments of the C6 scenario with the source's defaults applied. -/
def argsC6 : MultiModelArgs :=
  { task_type := "research"
    context := Json.obj []
    models := ["gpt-4o"]
    priority := "high"
    structured_output := true
    session_persistence := true }

/- Theorems. -/

example : Json.parse "not json" = none := rfl

example : Json.parse "\x7b\x7d" = some (Json.obj []) := rfl

example : Json.parse "\x7b\"success\":true,\"session_id\":\"s1\",\"model_used\":\"gpt\"\x7d"
    = some (Json.obj [("success", Json.bool true), ("session_id", Json.str "s1"),
        ("model_used", Json.str "gpt")]) := rfl

example : strContains "Python process failed: boom" "boom" = true := by decide

example : strContains "Python process failed: boom" "timeout" = false := by decide

/- Lemmas about the association-list map model. -/

/-- Deleting an absent key is a no-op. -/
theorem adelete_of_alookup_none {α : Type} (m : List (String × α)) (k : String)
    (h : alookup m k = none) : adelete m k = m := by
  induction m with
  | nil => rfl
  | cons p rest ih =>
      obtain ⟨k', v'⟩ := p
      by_cases hk : k' = k
      · simp [alookup, hk] at h
      · simp [alookup, hk] at h
        simp [adelete, hk, ih h]

/-- Inserting a fresh key and deleting it restores the map. -/
theorem adelete_aset_of_alookup_none {α : Type} (m : List (String × α)) (k : String)
    (v : α) (h : alookup m k = none) : adelete (aset m k v) k = m := by
  induction m with
  | nil => simp [aset, adelete]
  | cons p rest ih =>
      obtain ⟨k', v'⟩ := p
      by_cases hk : k' = k
      · simp [alookup, hk] at h
      · simp [alookup, hk] at h
        simp [aset, adelete, hk, ih h]

/-- Looking up a key just set yields the new value. -/
theorem alookup_aset_self {α : Type} (m : List (String × α)) (k : String) (v : α) :
    alookup (aset m k v) k = some v := by
  induction m with
  | nil => simp [aset, alookup]
  | cons p rest ih =>
      obtain ⟨k', v'⟩ := p
      by_cases hk : k' = k
      · simp [aset, hk, alookup]
      · simp [aset, hk, alookup, ih]

/-- Setting an index below the length makes `get?` return the new value. -/
theorem get?_set_self_of_lt {α : Type} (l : List α) (n : Nat) (v : α)
    (h : n < l.length) : (l.set n v).get? n = some v := by
  induction l generalizing n with
  | nil => simp at h
  | cons x xs ih =>
      cases n with
      | zero => rfl
      | succ n => simpa [List.set, List.get?] using ih n (by simpa using h)

/- Claims. -/

/-- C1: the claim says a failure of the forensic persistence step never
changes the `OrchestrationResult` of the task that triggered it.  In the
source the awaited forensic write sits inside the same `try` block as
the task, so its rejection is caught by the task's `catch` and the
caller receives `success: false` even though the task itself succeeded.
This theorem evaluates one submission twice — identical task, identical
successful process run, differing only in the forensic write outcome —
and shows the returned result flips from success to failure. -/
theorem C1_forensic_write_failure_flips_result :
    (orchestrateCognitiveTask configForensic initState sampleTask
        (envOf { exitCode := 0, stdout := "\x7b\x7d", stderr := "" } none)).1 =
      Except.ok okEmptyResponse ∧
    (orchestrateCognitiveTask configForensic initState sampleTask
        (envOf { exitCode := 0, stdout := "\x7b\x7d", stderr := "" }
          (some "ENOENT: no such file or directory"))).1 =
      Except.ok (catchResponse "ENOENT: no such file or directory") :=
  ⟨rfl, rfl⟩

/-- C2: the claim says every completed submission increments
`totalOperations` exactly once and the matching success-or-failure
counter exactly once, failures included.  In the source
`updateCognitiveMetrics` is reached only on the success path, and the
metrics object holds no success or failure counter at all.  This
theorem evaluates a failed submission (process exit 1) against a state
with five prior operations and shows the entire metrics object is
returned untouched. -/

theorem C2_failed_task_skips_metrics :
    (orchestrateCognitiveTask configNoForensic stBusy sampleTask
        (envOf { exitCode := 1, stdout := "", stderr := "boom" } none)).1 =
      Except.ok (catchResponse "Python process failed: boom") ∧
    (orchestrateCognitiveTask configNoForensic stBusy sampleTask
        (envOf { exitCode := 1, stdout := "", stderr := "boom" } none)).2.cognitiveMetrics =
      metricsBusy ∧
    metricsBusy.totalOperations = 5 :=
  ⟨rfl, rfl, rfl⟩

/-- C3: the claim says the metrics view's derived values equal the
cumulative reference formulas (`successRate` = successes / total,
average = total duration / total), computed on read from counters.  The
source instead stores incrementally blended values:
`averageResponseTime = (old + duration) / 2` and
`successRate = (old + 1) / totalOperations` on the success branch.
After three successful operations with durations 100, 0, 0 the stored
`successRate` is 2/3 although all three operations succeeded (reference
value 1), and the stored average is 25/2 although the true mean is
100/3; `getCognitiveMetrics` surfaces the stored values unchanged. -/
theorem C3_blended_metrics_diverge_from_reference :
    mAfter3.totalOperations = 3 ∧
    mAfter3.successRate = 2/3 ∧ (2 : ℚ)/3 ≠ ((3 : ℚ)/3) ∧
    mAfter3.averageResponseTime = 25/2 ∧ (25 : ℚ)/2 ≠ ((100 : ℚ)/3) ∧
    (getCognitiveMetrics (stWithOp mAfter3) 0 0).successRate = 2/3 ∧
    (getCognitiveMetrics (stWithOp mAfter3) 0 0).averageResponseTime = 25/2 := by
  have e1 : mAfter1 = ({ totalOperations := 1, successRate := 1, averageResponseTime := 50, modelUsageStats := [] } : CognitiveMetrics) := by
    norm_num [mAfter1, updateCognitiveMetrics, stWithOp, initMetrics, resOkPlain, alookup, isStrictlyFalse, Json.getField, isTruthy]
    all_goals decide
  have e2 : mAfter2 = ({ totalOperations := 2, successRate := 1, averageResponseTime := 25, modelUsageStats := [] } : CognitiveMetrics) := by
    norm_num [mAfter2, e1, updateCognitiveMetrics, stWithOp, alookup, isStrictlyFalse, Json.getField, isTruthy, resOkPlain]
    all_goals decide
  have e3 : mAfter3 = ({ totalOperations := 3, successRate := 2/3, averageResponseTime := 25/2, modelUsageStats := [] } : CognitiveMetrics) := by
    norm_num [mAfter3, e2, updateCognitiveMetrics, stWithOp, alookup, isStrictlyFalse, Json.getField, isTruthy, resOkPlain]
    all_goals decide
  refine ⟨by rw [e3], by rw [e3], by norm_num, by rw [e3], by norm_num, ?_, ?_⟩
  · simp [getCognitiveMetrics, stWithOp, e3]
  · simp [getCognitiveMetrics, stWithOp, e3]

/-- C4: the claim says a process running longer than the configured
timeout is forcibly terminated and the submission fails with a timeout
error.  `executePythonScript` registers only stdout/stderr `data`
handlers and a `close` handler: it sets no timer, never calls `kill`,
and its promise settles only when the process closes on its own —
moreover `BridgeConfig` has no timeout field to configure.  Evaluated on
a process that ran for an hour: no kill was issued, the call settled
only at the hour mark, and the result is the process's ordinary
result — no timeout failure is ever produced. -/
theorem C4_no_timeout_enforcement :
    (executePythonScriptTimed { exitCode := 0, stdout := "\x7b\x7d", stderr := "", runMs := 3600000 }).killSignals = 0 ∧
    (executePythonScriptTimed { exitCode := 0, stdout := "\x7b\x7d", stderr := "", runMs := 3600000 }).settledAtMs = 3600000 ∧
    (executePythonScriptTimed { exitCode := 0, stdout := "\x7b\x7d", stderr := "", runMs := 3600000 }).result = Except.ok (Json.obj []) ∧
    (executePythonScriptTimed { exitCode := 1, stdout := "", stderr := "late", runMs := 3600000 }).result = Except.error "Python process failed: late" ∧
    strContains "Python process failed: late" "timeout" = false :=
  ⟨rfl, rfl, rfl, rfl, by decide⟩

/-- C7 counterexample: the claim says an undeclared task type yields
`error: "UnknownTaskType"`.  On the concrete undeclared type `foo` the
source returns the structured failure whose error string is
`Unknown task type: foo`, which is not the string `UnknownTaskType`. -/
theorem C7_counterexample :
    (orchestrateCognitiveTask configNoForensic initState
        { sampleTask with type := "foo" } envIdle).1 =
      Except.ok (catchResponse "Unknown task type: foo") ∧
    (catchResponse "Unknown task type: foo").success = false ∧
    (catchResponse "Unknown task type: foo").error ≠ some "UnknownTaskType" :=
  ⟨rfl, rfl, by decide⟩

/-- C7 amended: for every submission on an initialized bridge whose task
type is none of the five declared values, `orchestrateCognitiveTask`
returns (never throws) the structured failure `success: false` with
error string `Unknown task type: ` followed by the declared type. -/
theorem C7_unknown_type_returns_structured_failure (config : BridgeConfig)
    (st : BridgeState) (task : CognitiveTask) (env : OrchEnv)
    (hinit : st.isInitialized = true)
    (h1 : task.type ≠ "legal_reasoning") (h2 : task.type ≠ "research")
    (h3 : task.type ≠ "analysis") (h4 : task.type ≠ "code_generation")
    (h5 : task.type ≠ "cross_platform_sync") :
    (orchestrateCognitiveTask config st task env).1 =
      Except.ok (catchResponse ("Unknown task type: " ++ task.type)) := by
  unfold orchestrateCognitiveTask routeWorkflow
  simp [hinit, h1, h2, h3, h4, h5]

/-- C7 witness: the amended statement instantiated on the undeclared
type `bar`. -/
theorem C7_unknown_type_returns_structured_failure_witness :
    initState.isInitialized = true ∧
    (orchestrateCognitiveTask configNoForensic initState
        { sampleTask with type := "bar" } envIdle).1 =
      Except.ok (catchResponse "Unknown task type: bar") :=
  ⟨rfl, C7_unknown_type_returns_structured_failure configNoForensic initState
    { sampleTask with type := "bar" } envIdle rfl (by decide) (by decide)
    (by decide) (by decide) (by decide)⟩

/-- C10: submitting a task while the bridge is not initialized rejects
with `LionAGI Bridge not initialized` before any state is touched: the
returned state is exactly the input state — no operation id inserted
into `activeOperations`, metrics unchanged. -/
theorem C10_uninitialized_rejects_with_state_untouched (config : BridgeConfig)
    (st : BridgeState) (task : CognitiveTask) (env : OrchEnv)
    (h : st.isInitialized = false) :
    orchestrateCognitiveTask config st task env =
      (Except.error "LionAGI Bridge not initialized", st) := by
  unfold orchestrateCognitiveTask
  simp [h]

/-- C10 witness: the statement instantiated on a concrete uninitialized
bridge. -/
theorem C10_uninitialized_rejects_with_state_untouched_witness :
    ({ initState with isInitialized := false } : BridgeState).isInitialized = false ∧
    orchestrateCognitiveTask configNoForensic { initState with isInitialized := false }
        sampleTask envIdle =
      (Except.error "LionAGI Bridge not initialized",
        { initState with isInitialized := false }) :=
  ⟨rfl, C10_uninitialized_rejects_with_state_untouched configNoForensic
    { initState with isInitialized := false } sampleTask envIdle rfl⟩

/-- C5: every submission that reaches a terminal state removes the
operation id it inserted, on every exit path — workflow success, routing
failure, workflow failure, and forensic-write failure alike — so
`activeOperations` after the call equals `activeOperations` before it
(the generated operation id being fresh), and in particular a quiescent
bridge keeps an empty map. -/
theorem C5_active_operations_restored (config : BridgeConfig) (st : BridgeState)
    (task : CognitiveTask) (env : OrchEnv)
    (h : alookup st.activeOperations (operationIdOf env) = none) :
    (orchestrateCognitiveTask config st task env).2.activeOperations =
      st.activeOperations := by
  have hd : ∀ op : Operation,
      adelete (aset st.activeOperations (operationIdOf env) op) (operationIdOf env) =
        st.activeOperations :=
    fun op => adelete_aset_of_alookup_none _ _ _ h
  unfold orchestrateCognitiveTask
  by_cases hinit : st.isInitialized = false
  · simp [hinit]
  · rw [if_neg hinit]
    cases hrw : routeWorkflow task env with
    | error msg => simpa using hd _
    | ok result =>
        dsimp only
        cases hcf : config.forensicLogging
        · simpa using hd _
        · simp only [logForensicOperation, if_true]
          cases henv : env.forensicWriteError
          · simpa using hd _
          · simpa using hd _

/-- C5 witness: the statement instantiated on a concrete submission
against an initialized bridge with no live operations: the map is empty
again afterwards. -/
theorem C5_active_operations_restored_witness :
    alookup initState.activeOperations (operationIdOf envIdle) = none ∧
    (orchestrateCognitiveTask configNoForensic initState sampleTask envIdle).2.activeOperations =
      initState.activeOperations :=
  ⟨rfl, C5_active_operations_restored configNoForensic initState sampleTask envIdle rfl⟩

/-- C9 counterexample: the claim says a returned snapshot — including
its `modelUsageStats` map — is unchanged by operations recorded after it
was taken.  Take a snapshot of a fresh bridge (its stats object reads
as empty), then record one operation using model `gpt` through the
internal metrics object: reading the same snapshot's `modelUsageStats`
now yields `gpt ↦ 1`, because the spread copied the map by reference,
not by value. -/
theorem C9_counterexample :
    heapGet heapFresh snapFresh.stats = [] ∧
    heapGet (recordModelUsageR heapFresh metricsRFresh "gpt") snapFresh.stats = [("gpt", 1)] ∧
    heapGet (recordModelUsageR heapFresh metricsRFresh "gpt") snapFresh.stats ≠
      heapGet heapFresh snapFresh.stats := by
  refine ⟨rfl, ?_, ?_⟩ <;> decide

/-- C9 amended: `getCognitiveMetrics` spreads `cognitiveMetrics`, which
copies the scalar fields by value — the snapshot's numbers are fixed at
snapshot time — but copies `modelUsageStats` as a reference to the same
object, so an operation recorded after the snapshot is visible through
the snapshot's map (and, symmetrically, mutating the snapshot's map
mutates the bridge's). -/
theorem C9_snapshot_scalars_copied_stats_aliased (m : MetricsObjR) (h : JsHeap)
    (model : String) (activeOps queued sessions : Nat)
    (hr : m.stats < h.statsObjs.length) :
    (getCognitiveMetricsR m activeOps queued sessions).totalOperations = m.totalOperations ∧
    (getCognitiveMetricsR m activeOps queued sessions).successRate = m.successRate ∧
    (getCognitiveMetricsR m activeOps queued sessions).averageResponseTime = m.averageResponseTime ∧
    (getCognitiveMetricsR m activeOps queued sessions).stats = m.stats ∧
    heapGet (recordModelUsageR h m model)
        (getCognitiveMetricsR m activeOps queued sessions).stats =
      aset (heapGet h m.stats) model ((alookup (heapGet h m.stats) model).getD 0 + 1) := by
  refine ⟨rfl, rfl, rfl, rfl, ?_⟩
  show heapGet (recordModelUsageR h m model) m.stats = _
  unfold recordModelUsageR heapSet heapGet
  rw [get?_set_self_of_lt _ _ _ hr]
  rfl

/-- C9 amended witness: the statement instantiated on the fresh bridge
and model `gpt`. -/
theorem C9_snapshot_scalars_copied_stats_aliased_witness :
    metricsRFresh.stats < heapFresh.statsObjs.length ∧
    heapGet (recordModelUsageR heapFresh metricsRFresh "gpt") snapFresh.stats =
      aset (heapGet heapFresh metricsRFresh.stats) "gpt"
        ((alookup (heapGet heapFresh metricsRFresh.stats) "gpt").getD 0 + 1) :=
  ⟨by decide, (C9_snapshot_scalars_copied_stats_aliased metricsRFresh heapFresh
    "gpt" 0 0 0 (by decide)).2.2.2.2⟩

/-- Routing a `research` task reaches `executePythonScript` on the
environment's process. -/
theorem routeWorkflow_research (task : CognitiveTask) (env : OrchEnv)
    (htype : task.type = "research") :
    routeWorkflow task env = executePythonScript env.proc := by
  have h1 : ("research" : String) ≠ "legal_reasoning" := by decide
  unfold routeWorkflow executeResearchWorkflow
  rw [htype, if_neg h1, if_pos rfl]

/-- C8: a process that exits 0 with stdout that `JSON.parse` rejects
yields a degraded success, never a thrown error: the executor resolves
with the raw stdout under `output` plus a non-empty `parsing_error`
message, and the orchestration returns `success: true` carrying exactly
that object as its result. -/
theorem C8_unparseable_stdout_degraded_success (config : BridgeConfig)
    (st : BridgeState) (task : CognitiveTask) (env : OrchEnv)
    (hinit : st.isInitialized = true)
    (htype : task.type = "research")
    (hexit : env.proc.exitCode = 0)
    (hparse : Json.parse env.proc.stdout = none)
    (hwrite : env.forensicWriteError = none) :
    executePythonScript env.proc =
      Except.ok (Json.obj [("output", Json.str env.proc.stdout),
        ("parsing_error", Json.str jsonParseErrorMsg)]) ∧
    jsonParseErrorMsg ≠ "" ∧
    (orchestrateCognitiveTask config st task env).1 =
      Except.ok (degradedResponse env.proc.stdout) := by
  have hne : ¬(st.isInitialized = false) := by simp [hinit]
  have hexe : executePythonScript env.proc =
      Except.ok (Json.obj [("output", Json.str env.proc.stdout),
        ("parsing_error", Json.str jsonParseErrorMsg)]) := by
    simp [executePythonScript, hexit, hparse]
  refine ⟨hexe, by decide, ?_⟩
  unfold orchestrateCognitiveTask
  rw [if_neg hne, routeWorkflow_research task env htype, hexe]
  dsimp only
  simp only [logForensicOperation, hwrite]
  cases hcf : config.forensicLogging
  · rfl
  · rfl

/-- C8 witness: the statement instantiated on the literal stdout
`not json`. -/
theorem C8_unparseable_stdout_degraded_success_witness :
    Json.parse "not json" = none ∧
    (orchestrateCognitiveTask configNoForensic initState sampleTask
        (envOf { exitCode := 0, stdout := "not json", stderr := "" } none)).1 =
      Except.ok (degradedResponse "not json") :=
  ⟨rfl, (C8_unparseable_stdout_degraded_success configNoForensic initState sampleTask
    (envOf { exitCode := 0, stdout := "not json", stderr := "" } none)
    rfl rfl rfl rfl rfl).2.2⟩

/-- Bridge-level behaviour of the C6 scenario: a process exiting 0 with
the `s1`/`gpt` JSON on stdout produces the success response carrying
session id `s1`, and bumps the `gpt` usage counter to 1 when it was
previously absent. -/
theorem bridge_s1_run (config : BridgeConfig) (st : BridgeState)
    (task : CognitiveTask) (env : OrchEnv)
    (hinit : st.isInitialized = true)
    (htype : task.type = "research")
    (hgpt : alookup st.cognitiveMetrics.modelUsageStats "gpt" = none)
    (hproc : env.proc = { exitCode := 0, stdout := s1Stdout, stderr := "" })
    (hwrite : env.forensicWriteError = none) :
    (orchestrateCognitiveTask config st task env).1 = Except.ok s1Response ∧
    alookup (orchestrateCognitiveTask config st task env).2.cognitiveMetrics.modelUsageStats
      "gpt" = some 1 := by
  have hne : ¬(st.isInitialized = false) := by simp [hinit]
  have hexe : executePythonScript env.proc = Except.ok s1Json := by
    rw [hproc]; rfl
  constructor
  · unfold orchestrateCognitiveTask
    rw [if_neg hne, routeWorkflow_research task env htype, hexe]
    dsimp only
    simp only [logForensicOperation, hwrite]
    cases hcf : config.forensicLogging
    · rfl
    · rfl
  · unfold orchestrateCognitiveTask
    rw [if_neg hne, routeWorkflow_research task env htype, hexe]
    dsimp only
    simp only [logForensicOperation, hwrite]
    have hstats : alookup (updateCognitiveMetrics { st with activeOperations := aset st.activeOperations (operationIdOf env) { task := task, startTime := env.startNow, status := "processing" } } (operationIdOf env) s1Json env.endNow).modelUsageStats "gpt" = some 1 := by
      unfold updateCognitiveMetrics
      dsimp only
      rw [alookup_aset_self]
      dsimp only
      rw [if_pos (show isTruthy (Json.getField s1Json "model_used") = true from rfl)]
      rw [show jsToStringOpt (Json.getField s1Json "model_used") = "gpt" from rfl]
      rw [hgpt, alookup_aset_self]
      rfl
    cases hcf : config.forensicLogging
    · exact hstats
    · exact hstats

/-- C6: a submission through the engine whose spawned process exits 0
printing `success: true`, `session_id: s1`, `model_used: gpt` leaves the
engine's session store containing key `s1` (persistence being
requested and the workflow result carrying a session id) and the
metrics' `modelUsageStats` entry for `gpt` equal to 1. -/
theorem C6_session_created_and_model_counted (config : BridgeConfig)
    (est : EngineState) (args : MultiModelArgs) (env : OrchEnv) (engNow : Nat)
    (hinit : est.bridge.isInitialized = true)
    (htype : args.task_type = "research")
    (hgpt : alookup est.bridge.cognitiveMetrics.modelUsageStats "gpt" = none)
    (hpers : args.session_persistence = true)
    (hproc : env.proc = { exitCode := 0, stdout := s1Stdout, stderr := "" })
    (hwrite : env.forensicWriteError = none) :
    (alookup (orchestrateMultiModelTask config est args env engNow).2.lionagiSessions
      "s1").isSome = true ∧
    alookup (orchestrateMultiModelTask config est args env
      engNow).2.bridge.cognitiveMetrics.modelUsageStats "gpt" = some 1 := by
  have hb := bridge_s1_run config est.bridge (engineTaskOf args engNow) env hinit
    htype hgpt hproc hwrite
  unfold orchestrateMultiModelTask
  dsimp only
  cases horch : orchestrateCognitiveTask config est.bridge (engineTaskOf args engNow) env with
  | mk r bst =>
      rw [horch] at hb
      obtain ⟨hr, hstats⟩ := hb
      dsimp only at hr
      subst hr
      dsimp only
      rw [if_pos (show (args.session_persistence = true) ∧ (isTruthy s1Response.session_id = true) from ⟨hpers, rfl⟩)]
      rw [show jsToStringOpt s1Response.session_id = "s1" from rfl]
      exact ⟨by rw [alookup_aset_self]; rfl, hstats⟩

/-- C6 witness: the statement instantiated on a fresh engine and the
literal `s1`/`gpt` process output. -/
theorem C6_session_created_and_model_counted_witness :
    (alookup (orchestrateMultiModelTask configNoForensic engineInit argsC6
        (envOf { exitCode := 0, stdout := s1Stdout, stderr := "" } none)
        9).2.lionagiSessions "s1").isSome = true ∧
    alookup (orchestrateMultiModelTask configNoForensic engineInit argsC6
        (envOf { exitCode := 0, stdout := s1Stdout, stderr := "" } none)
        9).2.bridge.cognitiveMetrics.modelUsageStats "gpt" = some 1 :=
  C6_session_created_and_model_counted configNoForensic engineInit argsC6
    (envOf { exitCode := 0, stdout := s1Stdout, stderr := "" } none) 9
    rfl rfl rfl rfl rfl rfl
